import Mathlib

/-!
Verification development for the client scripts of the CARLA_experiments
repository. Each definition below is a shallow embedding of a function (or a
control-flow fragment) of the Python sources under `scripts/`; the theorems at
the end of the file settle the specification claims against these embeddings.

External simulator state (actor physics, camera images, route graphs) enters
the embeddings as explicit inputs: function-valued fields for simulator
queries, outcome parameters for callbacks and timeouts, and return codes for
external processes.
-/

/-- Model of `carla.Location`: a 3D point with rational coordinates. -/
structure Location where
  x : Rat
  y : Rat
  z : Rat
deriving DecidableEq, Repr

/-- Squared Euclidean distance between two locations. -/
def distSq (a b : Location) : Rat :=
  (a.x - b.x) ^ 2 + (a.y - b.y) ^ 2 + (a.z - b.z) ^ 2

/-- Decidable model of the comparison `a.distance(b) < t` against
`carla.Location.distance` (the Euclidean distance): for a threshold `t ≥ 0`
the real comparison `dist a b < t` holds iff `distSq a b < t ^ 2`, which is
rational and decidable. -/
def distLt (a b : Location) (t : Rat) : Bool :=
  decide (distSq a b < t ^ 2)

/-- Model of `carla.Rotation`. -/
structure Rotation where
  pitch : Rat
  yaw : Rat
  roll : Rat
deriving DecidableEq, Repr

/-- Model of `carla.Transform` (the fields the embedded code reads). -/
structure Transform where
  location : Location
  rotation : Rotation
deriving DecidableEq, Repr

/-- Model of `carla.Waypoint`: the embedded functions only ever read
`waypoint.transform.location`. -/
structure Waypoint where
  transform : Transform
deriving DecidableEq, Repr

/- ------------------------------------------------------------------ -/
/- scripts/run_pcla_vision.py: per-pedestrian state machine            -/
/- ------------------------------------------------------------------ -/

/-- Constant `WALKER_ARRIVAL_THRESHOLD_M = 0.5` of scripts/run_pcla_vision.py. -/
def WALKER_ARRIVAL_THRESHOLD_M : Rat := 1/2

/-- Constant `WALKER_PAUSE_TICKS = 50` of scripts/run_pcla_vision.py. -/
def WALKER_PAUSE_TICKS : Int := 50

/-- Constant `WALKER_TRIGGER_DISTANCE_M = 25.0` of scripts/run_pcla_vision.py. -/
def WALKER_TRIGGER_DISTANCE_M : Rat := 25

/-- Constant `WALKER_STAGGER_TICKS = 15` of scripts/run_pcla_vision.py. -/
def WALKER_STAGGER_TICKS : Nat := 15

/-- Per-walker record: the dict built at run_pcla_vision.py lines 425-434.
The `actor` and `controller` simulator handles are omitted (the
`go_to_location` calls are side effects on the simulator, not on this record).
The `state` field is a Python string, exactly as in the source. -/
structure Walker where
  state : String
  target : Location
  pause_ticks_left : Int
  start_loc : Location
  target_loc : Location
  index : Nat
deriving DecidableEq, Repr

/-- The walker dict as appended to `walkers` at spawn time
(run_pcla_vision.py lines 425-434): state "waiting", target = start_loc,
pause_ticks_left = 0. -/
def initWalker (startLoc targetLoc : Location) (i : Nat) : Walker :=
  { state := "waiting", target := startLoc, pause_ticks_left := 0,
    start_loc := startLoc, target_loc := targetLoc, index := i }

/-- Trigger-step update (run_pcla_vision.py lines 474-476): when the ego comes
within `WALKER_TRIGGER_DISTANCE_M` of the crossing reference location and no
trigger step has been recorded yet, the current step index is recorded. -/
def updateTriggerStep (triggerStep : Option Nat) (egoLoc crossingRefLoc : Location)
    (stepNo : Nat) : Option Nat :=
  if distLt egoLoc crossingRefLoc WALKER_TRIGGER_DISTANCE_M && triggerStep.isNone
  then some stepNo else triggerStep

/-- Staggered-start condition of the "waiting" branch
(run_pcla_vision.py line 479): `trigger_step is not None and
step >= trigger_step + w["index"] * WALKER_STAGGER_TICKS`. -/
def walkerCanStart (triggerStep : Option Nat) (stepNo : Nat) (i : Nat) : Bool :=
  match triggerStep with
  | none => false
  | some t => decide (stepNo ≥ t + i * WALKER_STAGGER_TICKS)

/-- One iteration of the per-walker state machine
(run_pcla_vision.py lines 477-498) for a single walker `w`, given the
recorded trigger step, the loop step counter and the walker actor's current
location as reported by the simulator. -/
def stepWalker (w : Walker) (triggerStep : Option Nat) (stepNo : Nat)
    (actorLoc : Location) : Walker :=
  if w.state = "waiting" then
    if walkerCanStart triggerStep stepNo w.index then
      { w with state := "cross_to_left", target := w.target_loc }
    else w
  else if w.state = "cross_to_left" ∨ w.state = "cross_to_right" then
    if distLt actorLoc w.target WALKER_ARRIVAL_THRESHOLD_M then
      { w with state := "pause", pause_ticks_left := WALKER_PAUSE_TICKS }
    else w
  else if w.state = "pause" then
    let ticks := w.pause_ticks_left - 1
    if ticks ≤ 0 then
      if w.target = w.target_loc then
        { w with state := "cross_to_right", target := w.start_loc,
                 pause_ticks_left := ticks }
      else
        { w with state := "cross_to_left", target := w.target_loc,
                 pause_ticks_left := ticks }
    else { w with pause_ticks_left := ticks }
  else w

/-- The four walker states that appear in run_pcla_vision.py. -/
def validWalkerState (s : String) : Bool :=
  s = "waiting" || s = "cross_to_left" || s = "cross_to_right" || s = "pause"

/-- Walker records reachable from the spawn-time record by iterating the state
machine with arbitrary per-step inputs. -/
inductive ReachableWalker (startLoc targetLoc : Location) (i : Nat) : Walker → Prop
  | init : ReachableWalker startLoc targetLoc i (initWalker startLoc targetLoc i)
  | step (w : Walker) (trig : Option Nat) (stepNo : Nat) (loc : Location) :
      ReachableWalker startLoc targetLoc i w →
      ReachableWalker startLoc targetLoc i (stepWalker w trig stepNo loc)

/- ------------------------------------------------------------------ -/
/- Repository script inventory (for the repo-level connectivity claim) -/
/- ------------------------------------------------------------------ -/

/-- One script of the repository together with two file-level facts read off
its source: whether executing it reaches a `carla.Client(...)` construction,
and whether executing it produces output (files or terminal report). -/
structure ScriptInfo where
  name : String
  constructsClient : Bool
  writesOutput : Bool
deriving DecidableEq, Repr

/-- The 18 Python files under scripts/. `constructsClient` records whether the
file contains a `carla.Client(...)` call on its execution path (module level,
`main`, or its `__main__` block); `writesOutput` whether executing the file
produces any output (image/media files or a printed report). `carla_hud.py`
only defines HUD helpers and produces nothing when executed;
`check_carla_agent.py` prints an import-availability report without a client;
`frames_to_media.py` and `images_to_gif.py` are pure ffmpeg encoders with no
`carla` import at all. -/
def repoScripts : List ScriptInfo :=
  [⟨"2Dplot_route.py", true, true⟩,
   ⟨"actor_capture.py", true, true⟩,
   ⟨"capture_one_png.py", true, true⟩,
   ⟨"carla_hud.py", false, false⟩,
   ⟨"check_carla_agent.py", false, true⟩,
   ⟨"closed_loop_drive.py", true, true⟩,
   ⟨"forward_stack_capture.py", true, true⟩,
   ⟨"frames_to_media.py", false, true⟩,
   ⟨"images_to_gif.py", false, true⟩,
   ⟨"multisensor_capture.py", true, true⟩,
   ⟨"print_snapshot.py", true, true⟩,
   ⟨"rig_capture_one.py", true, true⟩,
   ⟨"route_plan.py", true, true⟩,
   ⟨"run_pcla_vision.py", true, true⟩,
   ⟨"set_scene.py", true, true⟩,
   ⟨"sunset_capture.py", true, true⟩,
   ⟨"weather_capture.py", true, true⟩,
   ⟨"world_inspect.py", true, true⟩]

/-- The scripts whose execution never constructs a `carla.Client`. -/
def nonClientScripts : List String :=
  ["carla_hud.py", "check_carla_agent.py", "frames_to_media.py",
   "images_to_gif.py"]

/- ------------------------------------------------------------------ -/
/- scripts/frames_to_media.py: encoder control flow and output naming  -/
/- ------------------------------------------------------------------ -/

/-- Character-level test that `pat` occurs at the head of `l`. -/
def leadsList : List Char → List Char → Bool
  | [], _ => true
  | _ :: _, [] => false
  | p :: ps, c :: cs => p = c && leadsList ps cs

/-- Python `str.replace` on character lists, fuelled so that the recursion is
structural (each step consumes at least one character and one unit of fuel, so
any fuel ≥ the list length gives Python's semantics): scan once left to right,
replacing each leftmost non-overlapping occurrence of `pat` by `rep`. -/
def listReplaceAux (pat rep : List Char) : Nat → List Char → List Char
  | _, [] => []
  | 0, l => l
  | fuel + 1, c :: cs =>
    if !pat.isEmpty && leadsList pat (c :: cs) then
      rep ++ listReplaceAux pat rep fuel (cs.drop (pat.length - 1))
    else
      c :: listReplaceAux pat rep fuel cs

/-- Python `str.replace` for a nonempty pattern (the only use in this
repository is `base.replace("_frames", "")`). -/
def pyReplace (s pat rep : String) : String :=
  String.mk (listReplaceAux pat.data rep.data s.data.length s.data)

/-- Character-level test that `pat` occurs at the end of `l`. -/
def trailsList (pat l : List Char) : Bool :=
  leadsList pat.reverse l.reverse

/-- Modelled from the spec wording of the output-name clause, for comparison
with the code: the folder name with a trailing "_frames" suffix removed (and
only a trailing occurrence). -/
def dropFramesSuffix (s : String) : String :=
  if trailsList ("_frames".data) s.data then
    String.mk (s.data.take (s.data.length - "_frames".data.length))
  else s

/-- Environment of one frames_to_media.py run: the filesystem facts it checks
and the return codes of the external ffmpeg invocations it may perform.
`ffmpeg_on_path = false` models `FileNotFoundError` from `subprocess.run`;
`version_rc` is the exit status of `ffmpeg -version` (`check=True` raises
`CalledProcessError` when nonzero). -/
structure MediaEnv where
  input_dir_exists : Bool
  first_frame_exists : Bool
  ffmpeg_on_path : Bool
  version_rc : Int
  palettegen_rc : Int
  paletteuse_rc : Int
  video_rc : Int
deriving DecidableEq, Repr

/-- The `--format` choice of frames_to_media.py. -/
inductive MediaFormat
  | gif
  | video
deriving DecidableEq, Repr

/-- Output extension chosen at frames_to_media.py line 96. -/
def mediaExt : MediaFormat → String
  | .gif => ".gif"
  | .video => ".mp4"

/-- Result of an embedded run that may terminate with `SystemExit`. -/
def exceptIsError {ε α : Type} : Except ε α → Bool
  | .error _ => true
  | .ok _ => false

/-- Embedding of scripts/frames_to_media.py `main` (lines 95-118) together
with `encode_gif` (lines 29-60) and `encode_video` (lines 63-75), taken after
`resolve_paths`: `base` and `parent_dir` are the folder base name and parent
directory that `resolve_paths` returns. The result is the output path written
on success, or the `SystemExit` message. -/
def framesToMedia (env : MediaEnv) (fmt : MediaFormat) (base parent_dir : String) :
    Except String String :=
  let out_name := pyReplace base ("_frames") ("") ++ mediaExt fmt
  let output_path := parent_dir ++ "/" ++ out_name
  if env.input_dir_exists = false then
    .error ("Input directory not found")
  else if env.first_frame_exists = false then
    .error ("Frame sequence not found")
  else if env.ffmpeg_on_path = false ∨ env.version_rc ≠ 0 then
    .error ("ffmpeg not found on PATH")
  else
    match fmt with
    | .gif =>
      if env.palettegen_rc ≠ 0 then .error ("ffmpeg palettegen failed")
      else if env.paletteuse_rc ≠ 0 then .error ("ffmpeg paletteuse failed")
      else .ok output_path
    | .video =>
      if env.video_rc ≠ 0 then .error ("ffmpeg failed")
      else .ok output_path

/-- A fully successful environment (directory and first frame exist, ffmpeg on
PATH, all invocations exit 0). -/
def mediaEnvOK : MediaEnv :=
  { input_dir_exists := true, first_frame_exists := true, ffmpeg_on_path := true,
    version_rc := 0, palettegen_rc := 0, paletteuse_rc := 0, video_rc := 0 }

/- ------------------------------------------------------------------ -/
/- World settings: synchronous-mode save/restore flows                 -/
/- ------------------------------------------------------------------ -/

/-- The `carla.WorldSettings` fields the scripts touch (`synchronous_mode`,
`fixed_delta_seconds`) plus one representative field no script touches. -/
structure WorldSettings where
  synchronous_mode : Bool
  fixed_delta_seconds : Option Rat
  no_rendering_mode : Bool
deriving DecidableEq, Repr

/-- Model of `world.apply_settings(s)`: the world's settings become `s`. -/
def applySettings (_world s : WorldSettings) : WorldSettings := s

/-- Outcome of the aerial capture attempt in 2Dplot_route.py
`capture_aerial`: the callback delivered an image, the 5-second wait timed
out, or the try block raised. -/
inductive CaptureOutcome
  | success
  | timeout
  | failure
deriving DecidableEq, Repr

/-- Embedding of scripts/2Dplot_route.py `capture_aerial` (lines 147-234):
the extent arithmetic, the synchronous-mode switch, and the try/finally
settings restore. Returns the world settings after the routine together with
the optional extent (the rgb payload is not modelled; the claims concern the
extent and the settings). `get_settings()` returns a fresh copy on each call,
so `original_settings` and `settings` are distinct objects here. -/
def captureAerial (world : WorldSettings) (x_min x_max y_min y_max : Rat)
    (outcome : CaptureOutcome) : WorldSettings × Option (Rat × Rat × Rat × Rat) :=
  let cx := (x_min + x_max) / 2
  let cy_world := -((y_min + y_max) / 2)
  let side := max (x_max - x_min) (y_max - y_min)
  let half_side := side / 2
  let original_settings := world
  let settings : WorldSettings :=
    { world with synchronous_mode := true, fixed_delta_seconds := some (1/10) }
  let world1 := applySettings world settings
  let result : Option (Rat × Rat × Rat × Rat) :=
    match outcome with
    | .success =>
      let y_plot_top := -cy_world + half_side
      let y_plot_bottom := -cy_world - half_side
      some (cx - half_side, cx + half_side, y_plot_bottom, y_plot_top)
    | .timeout => none
    | .failure => none
  let world2 := applySettings world1 original_settings
  (world2, result)

/-- Settings flow of scripts/weather_capture.py `main` (lines 76-81 and
136-148), shared verbatim by actor_capture.py, sunset_capture.py,
forward_stack_capture.py and closed_loop_drive.py: two separate
`world.get_settings()` copies are taken, the second is mutated and applied,
and the `finally` block re-applies the first. `_failed` records whether the
capture loop raised; the restore runs either way. -/
def weatherCaptureFinalSettings (world : WorldSettings) (_failed : Bool) :
    WorldSettings :=
  let original_settings := world
  let settings : WorldSettings :=
    { world with synchronous_mode := true, fixed_delta_seconds := some (1/10) }
  let world1 := applySettings world settings
  applySettings world1 original_settings

/-- Settings flow of scripts/rig_capture_one.py `main` (lines 24-28 and
144-148): `settings = world.get_settings()` followed by
`original_settings = settings` binds BOTH names to the same mutable object, so
after `settings.synchronous_mode = True` and
`settings.fixed_delta_seconds = 0.1` the alias `original_settings` denotes the
mutated settings, and the `finally` block re-applies those mutated settings
instead of the pre-routine ones. -/
def rigCaptureOneFinalSettings (world : WorldSettings) (_failed : Bool) :
    WorldSettings :=
  let settings : WorldSettings :=
    { world with synchronous_mode := true, fixed_delta_seconds := some (1/10) }
  let original_settings := settings
  let world1 := applySettings world settings
  applySettings world1 original_settings

/- ------------------------------------------------------------------ -/
/- scripts/2Dplot_route.py: lane-polyline densification                -/
/- ------------------------------------------------------------------ -/

/-- The map interface `_walk_lane` uses: `waypoint.next(step)` and
`location.distance(target)`. The distance is the simulator's Euclidean float
distance; `_walk_lane` uses its value only as the numerator of
`int(max_dist / step)`, so it is carried as an abstract rational-valued
function here, and the claims are stated against this same distance. -/
structure LaneGraph where
  next : Waypoint → Rat → List Waypoint
  dist : Location → Location → Rat

/-- Python `int()` truncation toward zero on a rational. -/
def pyInt (q : Rat) : Int :=
  if 0 ≤ q then q.floor else -((-q).floor)

/-- The for-loop of `_walk_lane` (2Dplot_route.py lines 76-84): append the
current waypoint's `(x, -y)`, stop when `wp.next(step)` is empty, otherwise
continue from the first successor; at most `fuel` iterations. -/
def walkLaneLoop (g : LaneGraph) (step : Rat) : Nat → Waypoint → List (Rat × Rat)
  | 0, _ => []
  | n + 1, wp =>
    (wp.transform.location.x, -wp.transform.location.y) ::
      match g.next wp step with
      | [] => []
      | wp1 :: _ => walkLaneLoop g step n wp1

/-- Embedding of scripts/2Dplot_route.py `_walk_lane` (lines 65-87). -/
def walkLane (g : LaneGraph) (wpStart wpEnd : Waypoint) (step : Rat) :
    List (Rat × Rat) :=
  let target := wpEnd.transform.location
  let max_dist := g.dist wpStart.transform.location target
  let max_steps := max (pyInt (max_dist / step) + 1) 2
  walkLaneLoop g step max_steps.toNat wpStart ++ [(target.x, -target.y)]

/-- Waypoints reachable from `w` by repeatedly moving to an element of
`g.next _ step`. -/
inductive LaneReach (g : LaneGraph) (step : Rat) : Waypoint → Waypoint → Prop
  | refl (w : Waypoint) : LaneReach g step w w
  | head (w w1 w2 : Waypoint) : w1 ∈ g.next w step →
      LaneReach g step w1 w2 → LaneReach g step w w2

/- ------------------------------------------------------------------ -/
/- scripts/route_plan.py                                               -/
/- ------------------------------------------------------------------ -/

/-- The `RoadOption` enum of the vendored global route planner (only carried
through, never inspected, by the embedded functions). -/
inductive RoadOption
  | VOID
  | LEFT
  | RIGHT
  | STRAIGHT
  | LANEFOLLOW
  | CHANGELANELEFT
  | CHANGELANERIGHT
deriving DecidableEq, Repr

/-- Embedding of scripts/route_plan.py `route_trace_to_plot_coords`
(lines 89-101): collect `loc.x` into xs and `-loc.y` into ys. -/
def routeTraceToPlotCoords (route_trace : List (Waypoint × RoadOption)) :
    List Rat × List Rat :=
  (route_trace.map fun p => p.1.transform.location.x,
   route_trace.map fun p => -p.1.transform.location.y)

/-- Constant `PREFERRED_MAPS` of scripts/route_plan.py. -/
def PREFERRED_MAPS : List String :=
  ["Town10", "Town10HD", "Town10_Opt", "Town01", "Town02"]

/-- Embedding of scripts/route_plan.py `short_map_name` (lines 25-27):
`map_path.split("/")[-1] if "/" in map_path else map_path`. -/
def shortMapName (map_path : String) : String :=
  if map_path.contains '/' then (map_path.splitOn ("/")).getLastD map_path
  else map_path

/-- Embedding of scripts/route_plan.py `select_map_name` (lines 30-40).
Python's `preferred = preferred or PREFERRED_MAPS` falls back to the default
list when `preferred` is `None` or empty. -/
def selectMapName (available_maps : List String)
    (preferred : Option (List String)) : String :=
  let preferred :=
    match preferred with
    | none => PREFERRED_MAPS
    | some [] => PREFERRED_MAPS
    | some l => l
  let short_available := available_maps.map shortMapName
  match preferred.find? (fun name => short_available.contains name) with
  | some name => name
  | none => short_available.headD ("Town01")

/-- Embedding of scripts/2Dplot_route.py `_short_map_name` (lines 44-46),
textually the same computation as route_plan.short_map_name. -/
def shortMapNamePlot (path : String) : String :=
  if path.contains '/' then (path.splitOn ("/")).getLastD path
  else path

/-- Embedding of the inline map-selection expression of
scripts/2Dplot_route.py `connect_and_load_map` (lines 52-57). -/
def connectAndLoadMapSelection (available_maps : List String) : String :=
  let available := available_maps.map shortMapNamePlot
  let preferred := ["Town10", "Town10HD", "Town10_Opt", "Town01", "Town02"]
  match preferred.find? (fun m => available.contains m) with
  | some m => m
  | none => available.headD ("Town01")

/-- The Python exceptions distinguished by the error-handling claim:
`RuntimeError` (raised explicitly by `get_start_end_waypoints`) and
`IndexError` (raised by out-of-range list indexing). -/
inductive PyErr
  | runtimeError (msg : String)
  | indexError
deriving DecidableEq, Repr

/-- Python list indexing `l[i]`: nonnegative indices count from the front,
negative indices from the back, anything else is an `IndexError` (`none`). -/
def pyGet {α : Type} (l : List α) (i : Int) : Option α :=
  if 0 ≤ i then l.get? i.toNat
  else if 0 ≤ (l.length : Int) + i then l.get? ((l.length : Int) + i).toNat
  else none

/-- The map interface `get_start_end_waypoints` uses: `get_spawn_points()`
and `get_waypoint(location, project_to_road=True, lane_type=Driving)`, the
latter abstract (it always returns the snapped driving-lane waypoint). -/
structure CarlaMapModel where
  spawn_points : List Transform
  get_waypoint : Location → Waypoint

/-- Constant `END_SPAWN_INDEX = 10` of scripts/route_plan.py. -/
def END_SPAWN_INDEX : Int := 10

/-- Embedding of scripts/route_plan.py `get_start_end_waypoints`
(lines 43-65). -/
def getStartEndWaypoints (m : CarlaMapModel) (end_spawn_index : Option Int) :
    Except PyErr (Waypoint × Waypoint × Int) :=
  let e := end_spawn_index.getD END_SPAWN_INDEX
  if m.spawn_points.isEmpty then
    .error (.runtimeError ("No spawn points on this map."))
  else
    let end_idx := min e ((m.spawn_points.length : Int) - 1)
    match pyGet m.spawn_points 0, pyGet m.spawn_points end_idx with
    | some s0, some se =>
      .ok (m.get_waypoint s0.location, m.get_waypoint se.location, end_idx)
    | _, _ => .error .indexError

/-- A concrete map with exactly one spawn point. -/
def mapOneSpawn : CarlaMapModel :=
  { spawn_points := [⟨⟨0, 0, 0⟩, ⟨0, 0, 0⟩⟩],
    get_waypoint := fun l => ⟨⟨l, ⟨0, 0, 0⟩⟩⟩ }

/- ------------------------------------------------------------------ -/
/- scripts/weather_capture.py: sweep presets                           -/
/- ------------------------------------------------------------------ -/

/-- One preset of scripts/weather_capture.py `PRESETS` (lines 12-45). The
numeric fields carry the integer literals of the source (the `float()` in
`get_value_for_frame` only converts the already-computed integer). -/
structure WeatherPreset where
  param : String
  start : Int
  «end» : Int
  step : Int
  num_frames : Nat
  out_dir : String
deriving DecidableEq, Repr

/-- The `PRESETS` dict of scripts/weather_capture.py (lines 12-45), as an
association list. -/
def weatherPresets : List (String × WeatherPreset) :=
  [("sunset",
    { param := "sun_altitude_angle", start := 45, «end» := -18, step := 1,
      num_frames := 64, out_dir := "data/sunset_frames" }),
   ("cloudiness",
    { param := "cloudiness", start := 0, «end» := 100, step := 2,
      num_frames := 51, out_dir := "data/cloudiness_frames" }),
   ("wetness",
    { param := "wetness", start := 0, «end» := 100, step := 2,
      num_frames := 51, out_dir := "data/wetness_frames" }),
   ("precipitation",
    { param := "precipitation", start := 0, «end» := 100, step := 2,
      num_frames := 51, out_dir := "data/precipitation_frames" })]

/-- Embedding of scripts/weather_capture.py `get_value_for_frame`
(lines 48-52). -/
def getValueForFrame (preset : WeatherPreset) (i : Nat) : Int :=
  if preset.start > preset.«end» then preset.start - (i : Int) * preset.step
  else preset.start + (i : Int) * preset.step

/- ================================================================== -/
/- Theorems                                                           -/
/- ================================================================== -/

/-- C2 counterexample: the claim "for every script, executing it constructs a
client connection to the simulator before producing its output" is false:
frames_to_media.py produces its output with no client construction. -/
theorem C2_counterexample :
    ¬ (∀ s ∈ repoScripts, s.writesOutput = true → s.constructsClient = true) := by
  intro h
  have hmem : (⟨"frames_to_media.py", false, true⟩ : ScriptInfo) ∈ repoScripts := by
    decide
  have := h _ hmem rfl
  simp at this

/-- C2 (amended): every script constructs a `carla.Client` connection when
executed, except the two pure encoders (frames_to_media.py, images_to_gif.py),
the HUD helper module (carla_hud.py) and the import-availability check
(check_carla_agent.py). -/
theorem C2_scripts_connect (s : ScriptInfo) (hs : s ∈ repoScripts) :
    s.constructsClient = !(nonClientScripts.contains s.name) := by
  fin_cases hs <;> decide

/-- Witness for C2 at a concrete script of the inventory. -/
theorem C2_scripts_connect_witness :
    (⟨"weather_capture.py", true, true⟩ : ScriptInfo).constructsClient
      = !(nonClientScripts.contains ("weather_capture.py")) :=
  C2_scripts_connect ⟨"weather_capture.py", true, true⟩ (by decide)

/-- C4 (code bug): rig_capture_one.py switches the world into synchronous
mode but does not restore the original settings, because
`original_settings = settings` aliases the object that is subsequently
mutated: starting from an asynchronous world, the routine ends with the world
still in synchronous mode at 0.1 s steps. By contrast the settings flow shared
by weather_capture.py, actor_capture.py, sunset_capture.py,
forward_stack_capture.py and closed_loop_drive.py, and the one of
2Dplot_route.py `capture_aerial`, restore the pre-routine settings exactly,
on success and on failure alike. -/
theorem C4_rig_capture_one_restore_bug :
    rigCaptureOneFinalSettings ⟨false, none, false⟩ false
        = ⟨true, some (1/10), false⟩
    ∧ rigCaptureOneFinalSettings ⟨false, none, false⟩ false ≠ ⟨false, none, false⟩
    ∧ (∀ w failed, weatherCaptureFinalSettings w failed = w)
    ∧ (∀ w a b c d outcome, (captureAerial w a b c d outcome).1 = w) := by
  refine ⟨rfl, by decide, fun w failed => rfl, fun w a b c d outcome => rfl⟩

/-- C7: on success, `capture_aerial` returns the square extent centred on the
plot bounds, `(cx - half_side, cx + half_side, -cy_world - half_side,
-cy_world + half_side)` with `cx = (x_min+x_max)/2`,
`cy_world = -(y_min+y_max)/2` and
`half_side = max(x_max-x_min, y_max-y_min)/2`; on timeout or exception it
returns `(None, None)`. -/
theorem C7_capture_aerial_extent (w : WorldSettings) (x_min x_max y_min y_max : Rat)
    (outcome : CaptureOutcome) :
    (outcome = CaptureOutcome.success →
      (captureAerial w x_min x_max y_min y_max outcome).2
        = some ((x_min + x_max) / 2 - max (x_max - x_min) (y_max - y_min) / 2,
                (x_min + x_max) / 2 + max (x_max - x_min) (y_max - y_min) / 2,
                -(-((y_min + y_max) / 2)) - max (x_max - x_min) (y_max - y_min) / 2,
                -(-((y_min + y_max) / 2)) + max (x_max - x_min) (y_max - y_min) / 2))
    ∧ (outcome ≠ CaptureOutcome.success →
      (captureAerial w x_min x_max y_min y_max outcome).2 = none) := by
  cases outcome <;> simp [captureAerial]

/-- Witness for C7 at concrete bounds and a successful capture. -/
theorem C7_capture_aerial_extent_witness :
    (captureAerial ⟨false, none, false⟩ 0 2 0 4 CaptureOutcome.success).2
      = some ((0 + 2) / 2 - max (2 - 0) (4 - 0) / 2,
              (0 + 2) / 2 + max (2 - 0) (4 - 0) / 2,
              -(-((0 + 4) / 2)) - max (2 - 0) (4 - 0) / 2,
              -(-((0 + 4) / 2)) + max (2 - 0) (4 - 0) / 2) :=
  (C7_capture_aerial_extent ⟨false, none, false⟩ 0 2 0 4 CaptureOutcome.success).1 rfl

/-- C9: `route_plan.select_map_name` with the default preferred list and the
inline map-selection expression of `2Dplot_route.connect_and_load_map` compute
the same map name on every list of available map paths. -/
theorem C9_map_selection_agree (available_maps : List String) :
    selectMapName available_maps none = connectAndLoadMapSelection available_maps :=
  rfl

/-- Helper: a Python index in the valid range `-(len l) ≤ i < len l` hits an
element. -/
theorem pyGet_some {α : Type} (l : List α) (i : Int)
    (h1 : -((l.length : Int)) ≤ i) (h2 : i < (l.length : Int)) :
    ∃ a, pyGet l i = some a := by
  unfold pyGet
  by_cases h0 : 0 ≤ i
  · have hlt : i.toNat < l.length := by omega
    exact ⟨l.get ⟨i.toNat, hlt⟩, by simp [h0, List.get?_eq_get hlt]⟩
  · have h3 : 0 ≤ (l.length : Int) + i := by omega
    have hlt : ((l.length : Int) + i).toNat < l.length := by omega
    exact ⟨l.get ⟨_, hlt⟩, by simp [h0, h3, List.get?_eq_get hlt]⟩

/-- C3 counterexample: for the folder base name "a_frames_b_frames" (with all
checks and ffmpeg invocations succeeding) the encoder writes "a_b.gif" —
Python's `replace` removes every occurrence of "_frames" — and not
"a_frames_b.gif", the name with only the suffix removed, refuting the claim's
output-name clause. -/
theorem C3_counterexample :
    framesToMedia mediaEnvOK MediaFormat.gif ("a_frames_b_frames") ("data")
        = Except.ok ("data/a_b.gif")
    ∧ "data/a_b.gif"
        ≠ "data" ++ "/" ++ dropFramesSuffix ("a_frames_b_frames") ++ ".gif" := by
  exact ⟨rfl, by decide⟩

/-- C8: for every preset of weather_capture.py, the value at frame 0 is the
preset's start, the value at frame `num_frames - 1` is the preset's end, and
successive frames change by exactly `step`, decreasing when start > end and
increasing otherwise. -/
theorem C8_weather_sweep (entry : String × WeatherPreset)
    (h : entry ∈ weatherPresets) :
    getValueForFrame entry.2 0 = entry.2.start
    ∧ getValueForFrame entry.2 (entry.2.num_frames - 1) = entry.2.«end»
    ∧ (∀ i : Nat, getValueForFrame entry.2 (i + 1) - getValueForFrame entry.2 i
        = if entry.2.start > entry.2.«end» then -entry.2.step else entry.2.step)
    ∧ (entry.2.start > entry.2.«end» →
        ∀ i j : Nat, i < j →
          getValueForFrame entry.2 j < getValueForFrame entry.2 i)
    ∧ (entry.2.start ≤ entry.2.«end» →
        ∀ i j : Nat, i < j →
          getValueForFrame entry.2 i < getValueForFrame entry.2 j) := by
  fin_cases h <;>
    refine ⟨by decide, by decide, fun i => ?_, fun hgt i j hij => ?_,
      fun hle i j hij => ?_⟩ <;>
    simp_all [getValueForFrame] <;> omega

/-- Witness for C8 at the sunset preset. -/
theorem C8_weather_sweep_witness :
    getValueForFrame
      { param := "sun_altitude_angle", start := 45, «end» := -18, step := 1,
        num_frames := 64, out_dir := "data/sunset_frames" } 0 = 45 :=
  (C8_weather_sweep
    ("sunset",
      { param := "sun_altitude_angle", start := 45, «end» := -18, step := 1,
        num_frames := 64, out_dir := "data/sunset_frames" }) (by decide)).1

/-- C10 counterexample: on a map with one spawn point and
`end_spawn_index = -5`, `get_start_end_waypoints` does not return normally —
`min(-5, 0) = -5` and `spawns[-5]` is an IndexError — refuting "for every map
with at least one spawn point it returns normally". -/
theorem C10_counterexample :
    mapOneSpawn.spawn_points ≠ []
    ∧ getStartEndWaypoints mapOneSpawn (some (-5))
        = Except.error PyErr.indexError := by
  exact ⟨by decide, rfl⟩

/-- C3 (amended): frames_to_media terminates with SystemExit iff the resolved
input directory is missing, frame_0000.png is missing, ffmpeg is not on PATH,
or an ffmpeg invocation that the run performs exits nonzero; otherwise it
writes the output into the parent directory under the folder name with every
left-to-right occurrence of "_frames" removed, plus the format extension. -/
theorem C3_frames_to_media (env : MediaEnv) (fmt : MediaFormat)
    (base parent_dir : String) :
    (exceptIsError (framesToMedia env fmt base parent_dir) = true ↔
      (env.input_dir_exists = false ∨ env.first_frame_exists = false
        ∨ env.ffmpeg_on_path = false ∨ env.version_rc ≠ 0
        ∨ (fmt = MediaFormat.gif ∧ (env.palettegen_rc ≠ 0 ∨ env.paletteuse_rc ≠ 0))
        ∨ (fmt = MediaFormat.video ∧ env.video_rc ≠ 0)))
    ∧ (∀ out, framesToMedia env fmt base parent_dir = Except.ok out →
        out = parent_dir ++ "/" ++ pyReplace base ("_frames") ("") ++ mediaExt fmt) := by
  obtain ⟨ide, ffe, fop, vrc, prc, urc, wrc⟩ := env
  cases ide <;> cases ffe <;> cases fop <;> cases fmt <;>
    by_cases hv : vrc = 0 <;> by_cases hp : prc = 0 <;>
    by_cases hu : urc = 0 <;> by_cases hw : wrc = 0 <;>
    simp [framesToMedia, exceptIsError, hv, hp, hu, hw, eq_comm] <;>
    exact (String.append_assoc _ _ _).symm

/-- Witness for C3 on a successful gif run. -/
theorem C3_frames_to_media_witness :
    "data/a_b.gif"
      = "data" ++ "/" ++ pyReplace ("a_frames_b_frames") ("_frames") ("")
          ++ mediaExt MediaFormat.gif :=
  (C3_frames_to_media mediaEnvOK MediaFormat.gif ("a_frames_b_frames") ("data")).2
    ("data/a_b.gif") rfl

/-- C10 (amended): `get_start_end_waypoints` raises RuntimeError iff the map
has no spawn points; for every map with at least one spawn point and every
`end_spawn_index ≥ -(number of spawn points)` it returns normally, choosing
start from spawn index 0 and an end index `min(end_spawn_index,
number_of_spawns - 1)`, which is a valid (possibly negative, Python-style)
index into the spawn list. -/
theorem C10_get_start_end_waypoints (m : CarlaMapModel)
    (end_spawn_index : Option Int) :
    ((∃ msg, getStartEndWaypoints m end_spawn_index
        = Except.error (PyErr.runtimeError msg)) ↔ m.spawn_points = [])
    ∧ (m.spawn_points ≠ [] →
        -((m.spawn_points.length : Int)) ≤ end_spawn_index.getD END_SPAWN_INDEX →
        ∃ s0 se,
          pyGet m.spawn_points 0 = some s0
          ∧ pyGet m.spawn_points
              (min (end_spawn_index.getD END_SPAWN_INDEX)
                ((m.spawn_points.length : Int) - 1)) = some se
          ∧ getStartEndWaypoints m end_spawn_index
              = Except.ok (m.get_waypoint s0.location, m.get_waypoint se.location,
                  min (end_spawn_index.getD END_SPAWN_INDEX)
                    ((m.spawn_points.length : Int) - 1))) := by
  by_cases hemp : m.spawn_points = []
  · refine ⟨⟨fun _ => hemp, fun _ => ?_⟩, fun hne => absurd hemp hne⟩
    exact ⟨"No spawn points on this map.", by
      simp [getStartEndWaypoints, hemp]⟩
  · have hlen : 0 < m.spawn_points.length := List.length_pos.mpr hemp
    have hne0 : m.spawn_points.isEmpty = false := by
      simp [List.isEmpty_iff, hemp]
    constructor
    · constructor
      · rintro ⟨msg, hmsg⟩
        exfalso
        rw [getStartEndWaypoints] at hmsg
        simp only [hne0, Bool.false_eq_true, if_false] at hmsg
        rcases h0 : pyGet m.spawn_points 0 with _ | s0 <;>
          rcases h1 : pyGet m.spawn_points
            (min (end_spawn_index.getD END_SPAWN_INDEX)
              ((m.spawn_points.length : Int) - 1)) with _ | s1 <;>
          simp [h0, h1] at hmsg
      · intro h; exact absurd h hemp
    · intro _ hbound
      have hmin1 : min (end_spawn_index.getD END_SPAWN_INDEX)
          ((m.spawn_points.length : Int) - 1) < (m.spawn_points.length : Int) := by
        have := min_le_right (end_spawn_index.getD END_SPAWN_INDEX)
          ((m.spawn_points.length : Int) - 1)
        omega
      have hmin2 : -((m.spawn_points.length : Int))
          ≤ min (end_spawn_index.getD END_SPAWN_INDEX)
              ((m.spawn_points.length : Int) - 1) := by
        rcases min_choice (end_spawn_index.getD END_SPAWN_INDEX)
          ((m.spawn_points.length : Int) - 1) with h | h <;> rw [h] <;> omega
      obtain ⟨s0, hs0⟩ := pyGet_some m.spawn_points 0 (by omega) (by omega)
      obtain ⟨se, hse⟩ := pyGet_some m.spawn_points _ hmin2 hmin1
      refine ⟨s0, se, hs0, hse, ?_⟩
      rw [getStartEndWaypoints]
      simp only [hne0, Bool.false_eq_true, if_false, hs0, hse]

/-- Witness for C10 on the one-spawn map with the default end spawn index. -/
theorem C10_get_start_end_waypoints_witness :
    ∃ s0 se,
      pyGet mapOneSpawn.spawn_points 0 = some s0
      ∧ pyGet mapOneSpawn.spawn_points
          (min ((none : Option Int).getD END_SPAWN_INDEX)
            ((mapOneSpawn.spawn_points.length : Int) - 1)) = some se
      ∧ getStartEndWaypoints mapOneSpawn none
          = Except.ok (mapOneSpawn.get_waypoint s0.location,
              mapOneSpawn.get_waypoint se.location,
              min ((none : Option Int).getD END_SPAWN_INDEX)
                ((mapOneSpawn.spawn_points.length : Int) - 1)) :=
  (C10_get_start_end_waypoints mapOneSpawn none).2 (by decide) (by decide)

/-- C6: `route_trace_to_plot_coords` returns two lists of the same length as
the route trace, with `xs[i]` the i-th waypoint's x coordinate and `ys[i]` the
negation of its y coordinate. -/
theorem C6_route_trace_to_plot_coords
    (route_trace : List (Waypoint × RoadOption)) :
    (routeTraceToPlotCoords route_trace).1.length = route_trace.length
    ∧ (routeTraceToPlotCoords route_trace).2.length = route_trace.length
    ∧ ∀ i (h : i < route_trace.length),
        (routeTraceToPlotCoords route_trace).1.get? i
            = some (route_trace.get ⟨i, h⟩).1.transform.location.x
        ∧ (routeTraceToPlotCoords route_trace).2.get? i
            = some (-(route_trace.get ⟨i, h⟩).1.transform.location.y) := by
  refine ⟨by simp [routeTraceToPlotCoords], by simp [routeTraceToPlotCoords], ?_⟩
  intro i h
  have h0 : route_trace.get? i = some (route_trace.get ⟨i, h⟩) := List.get?_eq_get h
  constructor
  · show (route_trace.map fun p => p.1.transform.location.x).get? i = _
    rw [List.get?_map, h0]; rfl
  · show (route_trace.map fun p => -p.1.transform.location.y).get? i = _
    rw [List.get?_map, h0]; rfl

/-- Witness for C6 on a one-element route trace. -/
theorem C6_route_trace_to_plot_coords_witness :
    (routeTraceToPlotCoords
        [(⟨⟨⟨3, 4, 0⟩, ⟨0, 0, 0⟩⟩⟩, RoadOption.LANEFOLLOW)]).1.get? 0
      = some 3
    ∧ (routeTraceToPlotCoords
        [(⟨⟨⟨3, 4, 0⟩, ⟨0, 0, 0⟩⟩⟩, RoadOption.LANEFOLLOW)]).2.get? 0
      = some (-4) :=
  (C6_route_trace_to_plot_coords
    [(⟨⟨⟨3, 4, 0⟩, ⟨0, 0, 0⟩⟩⟩, RoadOption.LANEFOLLOW)]).2.2 0 (by decide)

/-- Helper: the loop of `_walk_lane` emits at most `fuel` points. -/
theorem walkLaneLoop_length_le (g : LaneGraph) (step : Rat) :
    ∀ (n : Nat) (wp : Waypoint), (walkLaneLoop g step n wp).length ≤ n := by
  intro n
  induction n with
  | zero => intro wp; simp [walkLaneLoop]
  | succ k ih =>
    intro wp
    rcases hnext : g.next wp step with _ | ⟨w1, rest⟩ <;>
      simp [walkLaneLoop, hnext]
    exact ih w1

/-- Helper: with positive fuel the loop starts at the start waypoint's
plot point. -/
theorem walkLaneLoop_head (g : LaneGraph) (step : Rat) (n : Nat) (wp : Waypoint) :
    (walkLaneLoop g step (n + 1) wp).head?
      = some (wp.transform.location.x, -wp.transform.location.y) := by
  rcases hnext : g.next wp step with _ | ⟨w1, rest⟩ <;>
    simp [walkLaneLoop, hnext]

/-- Helper: every point the loop emits is the plot point of a waypoint that is
lane-reachable from the start waypoint. -/
theorem walkLaneLoop_mem (g : LaneGraph) (step : Rat) :
    ∀ (n : Nat) (wp : Waypoint) (p : Rat × Rat), p ∈ walkLaneLoop g step n wp →
      ∃ w : Waypoint, LaneReach g step wp w
        ∧ p = (w.transform.location.x, -w.transform.location.y) := by
  intro n
  induction n with
  | zero => intro wp p hp; simp [walkLaneLoop] at hp
  | succ k ih =>
    intro wp p hp
    rcases hnext : g.next wp step with _ | ⟨w1, rest⟩ <;>
      simp [walkLaneLoop, hnext] at hp
    · exact ⟨wp, LaneReach.refl wp, hp⟩
    · rcases hp with hp | hp
      · exact ⟨wp, LaneReach.refl wp, hp⟩
      · obtain ⟨w2, hreach, hpw⟩ := ih w1 p hp
        exact ⟨w2, LaneReach.head wp w1 w2 (by simp [hnext]) hreach, hpw⟩

/-- C5: for every pair of segment endpoint waypoints and every positive step,
`_walk_lane` returns at least two points, starting at the start waypoint's
(x, -y), ending exactly at the end waypoint's (x, -y), every element being the
(x, -y) of a lane-reachable waypoint or of the end waypoint, with length at
most `max(int(distance/step) + 1, 2) + 1`. -/
theorem C5_walk_lane (g : LaneGraph) (wpStart wpEnd : Waypoint) (step : Rat)
    (hstep : 0 < step)
    (hdist : 0 ≤ g.dist wpStart.transform.location wpEnd.transform.location) :
    2 ≤ (walkLane g wpStart wpEnd step).length
    ∧ (walkLane g wpStart wpEnd step).head?
        = some (wpStart.transform.location.x, -wpStart.transform.location.y)
    ∧ (walkLane g wpStart wpEnd step).getLast?
        = some (wpEnd.transform.location.x, -wpEnd.transform.location.y)
    ∧ (∀ p ∈ walkLane g wpStart wpEnd step,
        ∃ w : Waypoint, (LaneReach g step wpStart w ∨ w = wpEnd)
          ∧ p = (w.transform.location.x, -w.transform.location.y))
    ∧ ((walkLane g wpStart wpEnd step).length : Int)
        ≤ max ((g.dist wpStart.transform.location wpEnd.transform.location
            / step).floor + 1) 2 + 1 := by
  have hq : 0 ≤ g.dist wpStart.transform.location wpEnd.transform.location / step :=
    div_nonneg hdist hstep.le
  have hpy : pyInt (g.dist wpStart.transform.location wpEnd.transform.location / step)
      = (g.dist wpStart.transform.location wpEnd.transform.location / step).floor := by
    simp [pyInt, hq]
  have hms2 : (2 : Int)
      ≤ max (pyInt (g.dist wpStart.transform.location wpEnd.transform.location
          / step) + 1) 2 :=
    le_max_right _ _
  obtain ⟨k, hk⟩ : ∃ k,
      (max (pyInt (g.dist wpStart.transform.location wpEnd.transform.location
          / step) + 1) 2).toNat = k + 1 := by
    refine ⟨(max (pyInt (g.dist wpStart.transform.location wpEnd.transform.location
        / step) + 1) 2).toNat - 1, ?_⟩
    omega
  have hwl : walkLane g wpStart wpEnd step
      = walkLaneLoop g step (k + 1) wpStart
          ++ [(wpEnd.transform.location.x, -wpEnd.transform.location.y)] := by
    rw [walkLane, hk]
  have hloop_head := walkLaneLoop_head g step k wpStart
  obtain ⟨q, rest, hq⟩ : ∃ q rest, walkLaneLoop g step (k + 1) wpStart = q :: rest := by
    rcases hl : walkLaneLoop g step (k + 1) wpStart with _ | ⟨q, rest⟩
    · rw [hl] at hloop_head; simp at hloop_head
    · exact ⟨q, rest, rfl⟩
  have hqval : q = (wpStart.transform.location.x, -wpStart.transform.location.y) := by
    rw [hq] at hloop_head; simpa using hloop_head
  refine ⟨?_, ?_, ?_, ?_, ?_⟩
  · rw [hwl, hq]; simp
  · rw [hwl, hq, hqval]; simp
  · rw [hwl, List.getLast?_concat]
  · intro p hp
    rw [hwl] at hp
    rcases List.mem_append.mp hp with hp | hp
    · obtain ⟨w, hreach, hpw⟩ := walkLaneLoop_mem g step (k + 1) wpStart p hp
      exact ⟨w, Or.inl hreach, hpw⟩
    · exact ⟨wpEnd, Or.inr rfl, by simpa using hp⟩
  · have hlen : (walkLaneLoop g step (k + 1) wpStart).length ≤ k + 1 :=
      walkLaneLoop_length_le g step (k + 1) wpStart
    have hcast : ((k + 1 : Nat) : Int)
        = max (pyInt (g.dist wpStart.transform.location wpEnd.transform.location
            / step) + 1) 2 := by
      rw [← hk]; omega
    rw [hwl]
    rw [← hpy]
    simp only [List.length_append, List.length_singleton]
    omega

/-- Witness for C5 on a concrete two-waypoint segment with no successors. -/
theorem C5_walk_lane_witness :
    (0 : Rat) < 1
    ∧ 2 ≤ (walkLane ⟨fun _ _ => [], fun _ _ => 0⟩ ⟨⟨⟨0, 0, 0⟩, ⟨0, 0, 0⟩⟩⟩
        ⟨⟨⟨3, 4, 0⟩, ⟨0, 0, 0⟩⟩⟩ 1).length :=
  ⟨by norm_num,
    (C5_walk_lane ⟨fun _ _ => [], fun _ _ => 0⟩ ⟨⟨⟨0, 0, 0⟩, ⟨0, 0, 0⟩⟩⟩
      ⟨⟨⟨3, 4, 0⟩, ⟨0, 0, 0⟩⟩⟩ 1 (by norm_num) (le_refl 0)).1⟩

/-- Helper: invariant of all reachable walker records — the state string is
one of the four machine states, and the current target is one of the two
crossing endpoints. -/
theorem walkerInvariant (startLoc targetLoc : Location) (i : Nat) (w : Walker)
    (hw : ReachableWalker startLoc targetLoc i w) :
    validWalkerState w.state = true
    ∧ (w.target = w.start_loc ∨ w.target = w.target_loc)
    ∧ w.start_loc = startLoc ∧ w.target_loc = targetLoc ∧ w.index = i := by
  induction hw with
  | init => exact ⟨by simp [initWalker, validWalkerState], Or.inl rfl, rfl, rfl, rfl⟩
  | step w trig stepNo loc hw ih =>
    obtain ⟨hs, ht, h1, h2, h3⟩ := ih
    simp only [stepWalker]
    split_ifs <;>
      first
        | exact ⟨hs, ht, h1, h2, h3⟩
        | exact ⟨by simp [validWalkerState], Or.inl rfl, h1, h2, h3⟩
        | exact ⟨by simp [validWalkerState], Or.inr rfl, h1, h2, h3⟩
        | exact ⟨by simp [validWalkerState], ht, h1, h2, h3⟩

/-- C1: every reachable walker record has its state in
{waiting, cross_to_left, cross_to_right, pause} (before and after a step) and
its target at one of the two crossing endpoints; the trigger step becomes set
exactly when the ego is within the trigger distance (or it already was set);
a waiting walker moves only to cross_to_left, exactly when the trigger has
fired and its staggered start step is reached, taking the far-side target; a
crossing walker moves only to pause, exactly when it is within the arrival
threshold of its current target; and a pausing walker, once its decremented
pause counter reaches zero, moves to cross_to_right with the near-side target
when its last target was the far-side location, and to cross_to_left with the
far-side target otherwise — always the opposite endpoint. -/
theorem C1_walker_state_machine (startLoc targetLoc : Location) (i : Nat)
    (w : Walker) (hw : ReachableWalker startLoc targetLoc i w)
    (trig : Option Nat) (stepNo : Nat) (actorLoc egoLoc crossingRefLoc : Location) :
    validWalkerState w.state = true
    ∧ validWalkerState (stepWalker w trig stepNo actorLoc).state = true
    ∧ (w.target = w.start_loc ∨ w.target = w.target_loc)
    ∧ ((updateTriggerStep trig egoLoc crossingRefLoc stepNo).isSome = true ↔
        (distLt egoLoc crossingRefLoc WALKER_TRIGGER_DISTANCE_M = true
          ∨ trig.isSome = true))
    ∧ (w.state = "waiting" →
        (stepWalker w trig stepNo actorLoc = w
          ∨ (stepWalker w trig stepNo actorLoc).state = "cross_to_left")
        ∧ ((stepWalker w trig stepNo actorLoc).state = "cross_to_left"
            ↔ walkerCanStart trig stepNo w.index = true)
        ∧ (walkerCanStart trig stepNo w.index = true →
            (stepWalker w trig stepNo actorLoc).target = w.target_loc))
    ∧ ((w.state = "cross_to_left" ∨ w.state = "cross_to_right") →
        (stepWalker w trig stepNo actorLoc = w
          ∨ (stepWalker w trig stepNo actorLoc).state = "pause")
        ∧ ((stepWalker w trig stepNo actorLoc).state = "pause"
            ↔ distLt actorLoc w.target WALKER_ARRIVAL_THRESHOLD_M = true))
    ∧ (w.state = "pause" →
        (0 < w.pause_ticks_left - 1 →
          (stepWalker w trig stepNo actorLoc).state = "pause")
        ∧ (w.pause_ticks_left - 1 ≤ 0 →
            (w.target = w.target_loc →
              (stepWalker w trig stepNo actorLoc).state = "cross_to_right"
              ∧ (stepWalker w trig stepNo actorLoc).target = w.start_loc)
            ∧ (w.target ≠ w.target_loc →
              (stepWalker w trig stepNo actorLoc).state = "cross_to_left"
              ∧ (stepWalker w trig stepNo actorLoc).target = w.target_loc))) := by
  obtain ⟨hs, ht, -, -, -⟩ := walkerInvariant startLoc targetLoc i w hw
  have hs2 := (walkerInvariant startLoc targetLoc i _
    (ReachableWalker.step w trig stepNo actorLoc hw)).1
  refine ⟨hs, hs2, ht, ?_, ?_, ?_, ?_⟩
  · cases trig <;>
      by_cases hd : distLt egoLoc crossingRefLoc WALKER_TRIGGER_DISTANCE_M = true <;>
      simp [updateTriggerStep, hd]
  · intro hA
    have hred : stepWalker w trig stepNo actorLoc
        = if walkerCanStart trig stepNo w.index then
            { w with state := "cross_to_left", target := w.target_loc }
          else w := by
      simp [stepWalker, hA]
    by_cases hB : walkerCanStart trig stepNo w.index = true
    · rw [hred, if_pos hB]
      exact ⟨Or.inr rfl, by simp [hB], fun _ => rfl⟩
    · rw [hred, if_neg (by simpa using hB)]
      refine ⟨Or.inl rfl, ?_, fun hB2 => absurd hB2 hB⟩
      rw [hA]
      simp [hB]
  · intro hC
    have hwait : ¬ w.state = "waiting" := by
      rcases hC with h | h <;> rw [h] <;> simp
    have hred : stepWalker w trig stepNo actorLoc
        = if distLt actorLoc w.target WALKER_ARRIVAL_THRESHOLD_M then
            { w with state := "pause", pause_ticks_left := WALKER_PAUSE_TICKS }
          else w := by
      simp [stepWalker, hwait, hC]
    by_cases hD : distLt actorLoc w.target WALKER_ARRIVAL_THRESHOLD_M = true
    · rw [hred, if_pos hD]
      exact ⟨Or.inr rfl, by simp [hD]⟩
    · rw [hred, if_neg (by simpa using hD)]
      refine ⟨Or.inl rfl, ?_⟩
      rcases hC with h | h <;> rw [h] <;> simp [hD]
  · intro hE
    have hwait : ¬ w.state = "waiting" := by rw [hE]; simp
    have hcross : ¬ (w.state = "cross_to_left" ∨ w.state = "cross_to_right") := by
      rw [hE]; simp
    have hred : stepWalker w trig stepNo actorLoc
        = if w.pause_ticks_left - 1 ≤ 0 then
            if w.target = w.target_loc then
              { w with state := "cross_to_right", target := w.start_loc,
                       pause_ticks_left := w.pause_ticks_left - 1 }
            else
              { w with state := "cross_to_left", target := w.target_loc,
                       pause_ticks_left := w.pause_ticks_left - 1 }
          else { w with pause_ticks_left := w.pause_ticks_left - 1 } := by
      simp [stepWalker, hwait, hcross, hE]
    by_cases hF : w.pause_ticks_left - 1 ≤ 0
    · refine ⟨fun hpos => absurd hF (by omega), fun _ => ?_⟩
      by_cases hG : w.target = w.target_loc
      · rw [hred, if_pos hF, if_pos hG]
        exact ⟨fun _ => ⟨rfl, rfl⟩, fun hne => absurd hG hne⟩
      · rw [hred, if_pos hF, if_neg hG]
        exact ⟨fun heq => absurd heq hG, fun _ => ⟨rfl, rfl⟩⟩
    · refine ⟨fun _ => ?_, fun hle => absurd hle hF⟩
      rw [hred, if_neg hF]
      exact hE

/-- Witness for C1 at the freshly spawned walker record. -/
theorem C1_walker_state_machine_witness :
    validWalkerState (initWalker ⟨0, 0, 0⟩ ⟨0, 4, 0⟩ 0).state = true :=
  (C1_walker_state_machine ⟨0, 0, 0⟩ ⟨0, 4, 0⟩ 0
    (initWalker ⟨0, 0, 0⟩ ⟨0, 4, 0⟩ 0) ReachableWalker.init
    none 0 ⟨0, 0, 0⟩ ⟨0, 0, 0⟩ ⟨0, 0, 0⟩).1
